import Mathlib

/-!
Shallow embedding of the code snippets in `FastAPI_Tutorial.py`.

Python dictionaries with string keys are modelled as association lists
(`Dict`), Python string/int values as the inductive type `Value`, raised
exceptions as the `Except` monad, and Python `float` fields (which only
occur as inert record fields, never in arithmetic) as `Rat`.
-/

/-- A Python value occurring in the tutorial's dictionaries. -/
inductive Value where
  | str (s : String)
  | int (n : Int)
deriving DecidableEq, Repr

/-- A Python dict with string keys, as an insertion-ordered association list. -/
abbrev Dict : Type := List (String × Value)

/-- Python `d.get(k)` / `k in d` lookup on an association list. -/
def lookupStr {α : Type} (l : List (String × α)) (k : String) : Option α :=
  match l with
  | [] => Option.none
  | (k', v) :: rest => if k' = k then some v else lookupStr rest k

/-- Lookup `d.get(k)` on a `Dict`. -/
def dictGet (d : Dict) (k : String) : Option Value :=
  lookupStr d k

/-- Assignment `d[k] = v` on a `Dict`: replaces in place if `k` is present (Python
dicts keep insertion order), appends otherwise. -/
def dictSet (d : Dict) (k : String) (v : Value) : Dict :=
  match d with
  | [] => [(k, v)]
  | (k', v') :: rest => if k' = k then (k, v) :: rest else (k', v') :: dictSet rest k v

/-- The key list of a `Dict`, in insertion order. -/
def dictKeys (d : Dict) : List String :=
  d.map Prod.fst

/-- The `fastapi.HTTPException` class with the two fields the tutorial uses. -/
structure HTTPException where
  status_code : Nat
  detail : String
deriving DecidableEq, Repr

/-- The constant `SECRET_KEY = "mysecretkey"` of the JWT section. -/
def SECRET_KEY : String := "mysecretkey"

/-- Modelled from the spec: a JWT ("a signed, three-part token format used
to assert claims between parties") produced by the external `jwt` library's
`encode` is modelled as its payload together with the signing key and
algorithm, which is what the signature commits to. -/
structure Jwt where
  payload : Dict
  key : String
  alg : String
deriving DecidableEq, Repr

/-- Modelled from the spec: `jwt.encode(payload, key, algorithm)`. -/
def jwtEncode (payload : Dict) (key : String) (alg : String) : Jwt :=
  ⟨payload, key, alg⟩

/-- Outcome of `jwt.decode`: the payload on success, or one of the two
exception classes the tutorial's `read_protected` catches. -/
inductive DecodeResult where
  | ok (payload : Dict)
  | expiredSignatureError
  | jwtError
deriving DecidableEq, Repr

/-- Modelled from the spec: `jwt.decode(token, key, algorithms)` at clock
time `now`.  Decoding fails (`jwtError`) unless the token was signed with
the same key and one of the given algorithms; it raises
`ExpiredSignatureError` when the `exp` claim is not in the future. -/
def jwtDecode (t : Jwt) (key : String) (algorithms : List String) (now : Int) : DecodeResult :=
  if t.key = key ∧ t.alg ∈ algorithms then
    match dictGet t.payload "exp" with
    | some (Value.int e) => if e ≤ now then DecodeResult.expiredSignatureError else DecodeResult.ok t.payload
    | _ => DecodeResult.ok t.payload
  else DecodeResult.jwtError

/-- The function `create_jwt_token(data, expires_delta)` of the JWT section: copies `data`,
adds an `exp` claim at `now + expires_delta`, and encodes with
`SECRET_KEY` and HS256.  `datetime.utcnow()` is the extra `now` argument;
`timedelta` values are abstract integer time units. -/
def create_jwt_token (data : Dict) (expires_delta : Int) (now : Int) : Jwt :=
  let to_encode := data
  let expire := now + expires_delta
  let to_encode := dictSet to_encode "exp" (Value.int expire)
  jwtEncode to_encode SECRET_KEY "HS256"

/-- The mock user DB of the JWT section (lines 468-473). -/
def fake_users_db_jwt : List (String × Dict) :=
  [("admin", [("username", Value.str "admin"), ("password", Value.str "secret")])]

/-- The delta `access_token_expires = timedelta(minutes=30)`. -/
def access_token_expires : Int := 30

/-- The `Token` response model: `access_token` holds the encoded JWT
(a string in Python, modelled by `Jwt`), `token_type` the label. -/
structure Token where
  access_token : Jwt
  token_type : String
deriving DecidableEq, Repr

/-- The route `login_for_access_token(username, password)` of the JWT section:
rejects with 400 "Invalid credentials" unless the username is in
`fake_users_db_jwt` with the supplied password, else issues a bearer
token for `{"sub": username}` expiring 30 minutes from `now`. -/
def login_for_access_token (username password : String) (now : Int) : Except HTTPException Token :=
  match lookupStr fake_users_db_jwt username with
  | Option.none => Except.error ⟨400, "Invalid credentials"⟩
  | some user =>
    if dictGet user "password" ≠ some (Value.str password) then
      Except.error ⟨400, "Invalid credentials"⟩
    else
      Except.ok ⟨create_jwt_token [("sub", Value.str username)] access_token_expires now, "bearer"⟩

/-- Python's f-string rendering of the `Value`s this program stores. -/
def pyStr (v : Value) : String :=
  match v with
  | Value.str s => s
  | Value.int n => toString n

/-- The greeting body of the protected route. -/
def greet (username : String) : String :=
  "Hello " ++ username ++ ", you're authenticated!"

/-- The route `read_protected(token)` of the JWT section: decodes the token with
`SECRET_KEY`/HS256; an `ExpiredSignatureError` becomes 401 "Token has
expired", a decode failure becomes 401 "Invalid token", a payload without
a `sub` claim raises 401 "Invalid token" (an `HTTPException` is not a
`jwt` exception, so the `except` clauses do not catch it), and otherwise
the route greets the `sub` claim. -/
def read_protected (token : Jwt) (now : Int) : Except HTTPException String :=
  match jwtDecode token SECRET_KEY ["HS256"] now with
  | DecodeResult.expiredSignatureError => Except.error ⟨401, "Token has expired"⟩
  | DecodeResult.jwtError => Except.error ⟨401, "Invalid token"⟩
  | DecodeResult.ok payload =>
    match dictGet payload "sub" with
    | Option.none => Except.error ⟨401, "Invalid token"⟩
    | some v => Except.ok (greet (pyStr v))

/-- The mock user DB of the role-based authorization section (lines
520-523): records carry `username`, `password` and `role`. -/
def fake_users_db_roles : List (String × Dict) :=
  [("admin", [("username", Value.str "admin"), ("password", Value.str "admin"),
              ("role", Value.str "admin")]),
   ("user", [("username", Value.str "user"), ("password", Value.str "user"),
             ("role", Value.str "user")])]

/-- The dependency `get_current_user(username)`: 400 "Invalid credentials" when the
username is not in `fake_users_db_roles`, else the user record. -/
def get_current_user (username : String) : Except HTTPException Dict :=
  match lookupStr fake_users_db_roles username with
  | Option.none => Except.error ⟨400, "Invalid credentials"⟩
  | some user => Except.ok user

/-- The factory `check_role(required_role)`: returns the dependency closure that
rejects with 403 when the user's `role` field differs from
`required_role`, and passes the user record through otherwise. -/
def check_role (required_role : String) : Dict → Except HTTPException Dict :=
  fun user =>
    if dictGet user "role" ≠ some (Value.str required_role) then
      Except.error ⟨403, "You do not have permission to access this resource"⟩
    else
      Except.ok user

/-- The handler `read_root()` (lines 71-73): the handler's returned dict. -/
def read_root : Dict :=
  [("message", Value.str "Hello, FastAPI!")]

/-- An HTTP response as the test client observes it. -/
structure Response where
  status_code : Nat
  json : Dict
deriving DecidableEq, Repr

/-- Modelled from the spec: the framework wraps a handler's returned dict
in a response with the default status code 200 (the status the example
test asserts for the root route). -/
def handleGetRoot : Response :=
  ⟨200, read_root⟩

/-- The test `test_read_root()` (lines 281-284): the test's two assertions. -/
def test_read_root : Prop :=
  handleGetRoot.status_code = 200 ∧
    handleGetRoot.json = [("message", Value.str "Hello, FastAPI!")]

/-- The mock user DB of the HTTP Basic section (lines 338-343):
`username` and `password` only. -/
def fake_users_db_basic : List (String × Dict) :=
  [("admin", [("username", Value.str "admin"), ("password", Value.str "secret")])]

/-- The mock user DB of the OAuth2 section (lines 389-395): `username`,
`password` and `full_name`. -/
def fake_users_db_oauth : List (String × Dict) :=
  [("user1", [("username", Value.str "user1"), ("password", Value.str "password123"),
              ("full_name", Value.str "John Doe")])]

/-- Every user record kept in one of the four mock user databases of the
tutorial (HTTP Basic, OAuth2, JWT, role-based). -/
def mockUserDbRecords : List Dict :=
  (fake_users_db_basic ++ fake_users_db_oauth ++ fake_users_db_jwt ++ fake_users_db_roles).map
    Prod.snd

/-- The `Item` request model (lines 112-116).  `description` and `tax`
default to `None`; `float` fields are inert here, modelled by `Rat`. -/
structure Item where
  name : String
  description : Option String
  price : Rat
  tax : Option Rat

/-- The class `MyCustomError(Exception)` with its message (lines 895-896). -/
structure MyCustomError where
  message : String
deriving DecidableEq, Repr

/-- The function `check_value(x)` (lines 898-900): raises `MyCustomError("Negative
value not allowed!")` for negative `x`, returns `None` otherwise. -/
def check_value (x : Int) : Except MyCustomError Unit :=
  if x < 0 then Except.error ⟨"Negative value not allowed!"⟩ else Except.ok ()

/-- One pass of the retry loop body (lines 908-913), iterated with
explicit fuel since Python's `while True` has no bound: `inputs i` is the
`i`-th string the user types, `parse` is `int` (external, hence a
parameter), the returned list is what was printed, and the returned
option is the number bound by the successful `int(...)` (`Option.none`
while the loop has not exited). -/
def retryLoop (parse : String → Option Int) (inputs : Nat → String) :
    Nat → Nat → List String × Option Int
  | _, 0 => ([], Option.none)
  | i, fuel + 1 =>
    match parse (inputs i) with
    | some n => ([], some n)
    | Option.none =>
      let rest := retryLoop parse inputs (i + 1) fuel
      ("Invalid input. Please try again." :: rest.1, rest.2)

/-- Observable session events of the `get_db` dependency. -/
inductive DbEvent where
  | sessionOpen
  | sessionClose
deriving DecidableEq, Repr

/-- A run of the code using the yielded session: the events it emits on
the session and its outcome (normal return or a raised exception). -/
structure DbRun (α : Type) where
  events : List DbEvent
  result : Except String α

/-- The dependency `get_db()` (lines 170-175): opens the session, yields it to the body,
and closes it in the `finally` block, whether the body returned normally
or raised; a raised exception still propagates. -/
def get_db {α : Type} (body : DbRun α) : DbRun α :=
  ⟨DbEvent.sessionOpen :: (body.events ++ [DbEvent.sessionClose]), body.result⟩

/-- A heap of Python dict objects: mutation semantics for `create_jwt_token`'s
`data.copy()` / `to_encode.update(...)` lines.  References are allocation
indices below `next`. -/
structure Store where
  dicts : Nat → Dict
  next : Nat

/-- Python `d.copy()`: allocates a fresh dict with the same entries. -/
def dictCopy (s : Store) (r : Nat) : Store × Nat :=
  (⟨fun n => if n = s.next then s.dicts r else s.dicts n, s.next + 1⟩, s.next)

/-- Python `d.update(...)` with a single key: in-place update of the dict object at `r`. -/
def dictUpdateAt (s : Store) (r : Nat) (k : String) (v : Value) : Store :=
  ⟨fun n => if n = r then dictSet (s.dicts r) k v else s.dicts n, s.next⟩

/-- The function `create_jwt_token` again, but with the dict mutation explicit: `data`
is a reference into the store, `to_encode = data.copy()` allocates, and
`to_encode.update({"exp": expire})` mutates only the copy. -/
def create_jwt_token_st (data : Nat) (expires_delta : Int) (now : Int) (s : Store) :
    Store × Jwt :=
  let (s1, to_encode) := dictCopy s data
  let expire := now + expires_delta
  let s2 := dictUpdateAt s1 to_encode "exp" (Value.int expire)
  (s2, jwtEncode (s2.dicts to_encode) SECRET_KEY "HS256")

/-- A one-dict store used to instantiate the frame theorem. -/
def sampleStore : Store :=
  ⟨fun n => if n = 0 then [("sub", Value.str "alice")] else [], 1⟩

/-!
Theorems: one per claim, with helper lemmas for the retry loop.
-/

/-- Helper: if every input fails to parse, the retry loop never exits,
whatever the starting index and however much fuel it is given. -/
theorem retryLoop_none_of_all_fail (parse : String → Option Int) (inputs : Nat → String)
    (hall : ∀ i, parse (inputs i) = Option.none) :
    ∀ (fuel i : Nat),
      retryLoop parse inputs i fuel
        = (List.replicate fuel "Invalid input. Please try again.", Option.none) := by
  intro fuel
  induction fuel with
  | zero => intro i; rfl
  | succ n ih =>
    intro i
    simp [retryLoop, hall i, ih (i + 1), List.replicate_succ]

/-- Helper: if the first `m` inputs after index `i` fail to parse and the
next one parses to `v`, the loop run from `i` with more than `m` units of
fuel prints the retry message `m` times and exits with `v`. -/
theorem retryLoop_first_success (parse : String → Option Int) (inputs : Nat → String) :
    ∀ (m i fuel : Nat) (v : Int),
      (∀ j, j < m → parse (inputs (i + j)) = Option.none) →
      parse (inputs (i + m)) = some v → m < fuel →
      retryLoop parse inputs i fuel
        = (List.replicate m "Invalid input. Please try again.", some v) := by
  intro m
  induction m with
  | zero =>
    intro i fuel v hfail hsucc hlt
    cases fuel with
    | zero => omega
    | succ n =>
      have hs : parse (inputs i) = some v := by simpa using hsucc
      simp [retryLoop, hs]
  | succ m ih =>
    intro i fuel v hfail hsucc hlt
    cases fuel with
    | zero => omega
    | succ n =>
      have h0 : parse (inputs i) = Option.none := by
        have h := hfail 0 (Nat.succ_pos m)
        simpa using h
      have hfail' : ∀ j, j < m → parse (inputs (i + 1 + j)) = Option.none := by
        intro j hj
        have h := hfail (j + 1) (by omega)
        have harr : i + 1 + j = i + (j + 1) := by omega
        rw [harr]
        exact h
      have hsucc' : parse (inputs (i + 1 + m)) = some v := by
        have harr : i + 1 + m = i + (m + 1) := by omega
        rw [harr]
        exact hsucc
      have hrec := ih (i + 1) n v hfail' hsucc' (by omega)
      simp [retryLoop, h0, hrec, List.replicate_succ]

/-- C1: `login_for_access_token` returns a token with token type
"bearer" exactly when the username is in `fake_users_db_jwt` with the
supplied password, and otherwise raises HTTP 400 "Invalid credentials". -/
theorem login_for_access_token_spec (username password : String) (now : Int) :
    ((∃ t, login_for_access_token username password now = Except.ok t ∧
        t.token_type = "bearer") ↔
      (∃ user, lookupStr fake_users_db_jwt username = some user ∧
        dictGet user "password" = some (Value.str password))) ∧
    ((¬ ∃ user, lookupStr fake_users_db_jwt username = some user ∧
        dictGet user "password" = some (Value.str password)) →
      login_for_access_token username password now
        = Except.error ⟨400, "Invalid credentials"⟩) := by
  by_cases hu : ("admin" : String) = username
  · subst hu
    by_cases hp : ("secret" : String) = password
    · subst hp
      refine ⟨?_, fun hn => absurd ⟨_, rfl, rfl⟩ hn⟩
      constructor
      · intro _
        exact ⟨_, rfl, rfl⟩
      · intro _
        exact ⟨_, rfl, rfl⟩
    · have hlogin : login_for_access_token "admin" password now
          = Except.error ⟨400, "Invalid credentials"⟩ := by
        simp [login_for_access_token, fake_users_db_jwt, lookupStr, dictGet, hp]
      refine ⟨?_, fun _ => hlogin⟩
      constructor
      · rintro ⟨t, ht, -⟩
        rw [hlogin] at ht
        exact absurd ht (by simp)
      · rintro ⟨user, hus, hpw⟩
        simp [fake_users_db_jwt, lookupStr] at hus
        subst hus
        simp [dictGet, lookupStr] at hpw
        exact absurd hpw hp
  · have hlogin : login_for_access_token username password now
        = Except.error ⟨400, "Invalid credentials"⟩ := by
      simp [login_for_access_token, fake_users_db_jwt, lookupStr, hu]
    refine ⟨?_, fun _ => hlogin⟩
    constructor
    · rintro ⟨t, ht, -⟩
      rw [hlogin] at ht
      exact absurd ht (by simp)
    · rintro ⟨user, hus, -⟩
      simp [fake_users_db_jwt, lookupStr, hu] at hus

/-- C1 witness: the stored credentials admin/secret yield a bearer token. -/
theorem login_for_access_token_spec_witness :
    ∃ t, login_for_access_token "admin" "secret" 0 = Except.ok t ∧
      t.token_type = "bearer" :=
  (login_for_access_token_spec "admin" "secret" 0).1.mpr ⟨_, rfl, rfl⟩

/-- C2: decoding a token made by `create_jwt_token` for a `sub` claim,
with the same key and HS256, before the expiry time has passed, recovers
the payload with that `sub`, and the protected route greets exactly that
username. -/
theorem jwt_round_trip (username : String) (delta now now' : Int)
    (hdelta : 0 ≤ delta) (hfresh : now' < now + delta) :
    jwtDecode (create_jwt_token [("sub", Value.str username)] delta now)
        SECRET_KEY ["HS256"] now'
      = DecodeResult.ok [("sub", Value.str username), ("exp", Value.int (now + delta))] ∧
    dictGet [("sub", Value.str username), ("exp", Value.int (now + delta))] "sub"
      = some (Value.str username) ∧
    read_protected (create_jwt_token [("sub", Value.str username)] delta now) now'
      = Except.ok (greet username) := by
  have hnotexp : ¬ (now + delta ≤ now') := by omega
  refine ⟨?_, by simp [dictGet, lookupStr], ?_⟩
  · simp [create_jwt_token, jwtEncode, jwtDecode, dictSet, dictGet, lookupStr, hnotexp]
  · simp [read_protected, create_jwt_token, jwtEncode, jwtDecode, dictSet, dictGet,
      lookupStr, hnotexp, pyStr]

/-- C2 witness: a concrete token for alice decodes and greets alice. -/
theorem jwt_round_trip_witness :
    read_protected (create_jwt_token [("sub", Value.str "alice")] 30 0) 10
      = Except.ok (greet "alice") :=
  (jwt_round_trip "alice" 30 0 10 (by decide) (by decide)).2.2

/-- C3: for a user record obtained from `get_current_user`, the
dependency produced by `check_role` raises HTTP 403 with the permission
message exactly when the record's role differs from the required role,
and otherwise returns the record unchanged. -/
theorem check_role_spec (required_role username : String) (user : Dict)
    (hgot : get_current_user username = Except.ok user) :
    (check_role required_role user
        = Except.error ⟨403, "You do not have permission to access this resource"⟩ ↔
      dictGet user "role" ≠ some (Value.str required_role)) ∧
    (dictGet user "role" = some (Value.str required_role) →
      check_role required_role user = Except.ok user) := by
  by_cases h : dictGet user "role" = some (Value.str required_role)
  · simp [check_role, h]
  · simp [check_role, h]

/-- C3 witness: the admin record passes the admin role check unchanged. -/
theorem check_role_spec_witness :
    check_role "admin"
        [("username", Value.str "admin"), ("password", Value.str "admin"),
          ("role", Value.str "admin")]
      = Except.ok
        [("username", Value.str "admin"), ("password", Value.str "admin"),
          ("role", Value.str "admin")] :=
  (check_role_spec "admin" "admin" _ rfl).2 (by decide)

/-- C4: the root route always answers with status 200 and exactly the
body with message "Hello, FastAPI!", which is what `test_read_root`
asserts. -/
theorem read_root_fixed_response :
    handleGetRoot.status_code = 200 ∧
      handleGetRoot.json = [("message", Value.str "Hello, FastAPI!")] ∧
      test_read_root :=
  ⟨rfl, rfl, rfl, rfl⟩

/-- C5: the retry loop exits at the first parseable input, printing the
retry message once per earlier unparseable input, and never exits when no
input is parseable. -/
theorem retry_loop_spec (parse : String → Option Int) (inputs : Nat → String) :
    (∀ (k : Nat) (v : Int),
        (∀ j, j < k → parse (inputs j) = Option.none) →
        parse (inputs k) = some v →
        ∀ fuel, k < fuel →
          retryLoop parse inputs 0 fuel
            = (List.replicate k "Invalid input. Please try again.", some v)) ∧
    ((∀ i, parse (inputs i) = Option.none) →
      ∀ fuel, (retryLoop parse inputs 0 fuel).2 = Option.none) := by
  constructor
  · intro k v hfail hsucc fuel hlt
    have h1 : ∀ j, j < k → parse (inputs (0 + j)) = Option.none := by
      intro j hj
      simpa using hfail j hj
    have h2 : parse (inputs (0 + k)) = some v := by simpa using hsucc
    exact retryLoop_first_success parse inputs k 0 fuel v h1 h2 hlt
  · intro hall fuel
    rw [retryLoop_none_of_all_fail parse inputs hall fuel 0]

/-- C5 witness: with the integer 7 arriving third the loop exits there
after two retry messages, and with nothing parseable it never exits. -/
theorem retry_loop_spec_witness :
    retryLoop (fun s => if s = "7" then some 7 else Option.none)
        (fun i => if i = 2 then "7" else "x") 0 5
      = (List.replicate 2 "Invalid input. Please try again.", some 7) ∧
    (retryLoop (fun _ => Option.none) (fun _ => "x") 0 3).2 = Option.none :=
  ⟨(retry_loop_spec _ _).1 2 7 (by decide) (by decide) 5 (by decide),
    (retry_loop_spec _ _).2 (fun _ => rfl) 3⟩

/-- C6: `check_value` raises `MyCustomError` with the message "Negative
value not allowed!" exactly for negative arguments, and returns normally
otherwise. -/
theorem check_value_spec (x : Int) :
    (check_value x = Except.error ⟨"Negative value not allowed!"⟩ ↔ x < 0) ∧
      (0 ≤ x → check_value x = Except.ok ()) := by
  constructor
  · constructor
    · intro h
      by_contra hx
      simp [check_value, hx] at h
    · intro hx
      simp [check_value, hx]
  · intro hx
    simp [check_value, not_lt.mpr hx]

/-- C6 witness: -10 raises the custom error, 5 returns normally. -/
theorem check_value_spec_witness :
    check_value (-10) = Except.error ⟨"Negative value not allowed!"⟩ ∧
      check_value 5 = Except.ok () :=
  ⟨(check_value_spec (-10)).1.mpr (by decide), (check_value_spec 5).2 (by decide)⟩

/-- C7 counterexample: not every mock-user-db record has a `role` field;
the HTTP Basic section's admin record has only `username` and
`password`. -/
theorem mock_user_db_role_counterexample :
    ¬ ∀ r ∈ mockUserDbRecords, "role" ∈ dictKeys r := by
  decide

/-- C7 (amended): every mock-user-db record has `username` and
`password` fields; the records of the role-based database additionally
have a `role` field; `Item` has exactly the fields name, description,
price and tax; `Token` has exactly the fields access_token and
token_type. -/
theorem mock_data_model_shapes :
    (∀ r ∈ mockUserDbRecords, "username" ∈ dictKeys r ∧ "password" ∈ dictKeys r) ∧
    (∀ r ∈ fake_users_db_roles.map Prod.snd, "role" ∈ dictKeys r) ∧
    (∀ (n : String) (d : Option String) (p : Rat) (t : Option Rat),
      (Item.mk n d p t).name = n ∧ (Item.mk n d p t).description = d ∧
        (Item.mk n d p t).price = p ∧ (Item.mk n d p t).tax = t) ∧
    (∀ (a : Jwt) (ty : String),
      (Token.mk a ty).access_token = a ∧ (Token.mk a ty).token_type = ty) := by
  refine ⟨by decide, by decide, ?_, ?_⟩
  · intro n d p t
    exact ⟨rfl, rfl, rfl, rfl⟩
  · intro a ty
    exact ⟨rfl, rfl⟩

/-- C7 witness: the HTTP Basic admin record carries username and
password. -/
theorem mock_data_model_shapes_witness :
    "username" ∈ dictKeys [("username", Value.str "admin"), ("password", Value.str "secret")] ∧
      "password" ∈ dictKeys [("username", Value.str "admin"), ("password", Value.str "secret")] :=
  mock_data_model_shapes.1
    [("username", Value.str "admin"), ("password", Value.str "secret")] (by decide)

/-- C8: whatever the body of `get_db` does with the yielded session and
however it finishes, `get_db` closes the session exactly once more than
the body itself did, as its last session event, and passes the body's
outcome (normal or raised) through. -/
theorem get_db_closes_exactly_once {α : Type} (body : DbRun α) :
    (get_db body).events.count DbEvent.sessionClose
        = body.events.count DbEvent.sessionClose + 1 ∧
      (get_db body).events.getLast? = some DbEvent.sessionClose ∧
      (get_db body).result = body.result := by
  refine ⟨?_, ?_, rfl⟩
  · simp [get_db, List.count_cons, List.count_append]
  · show (DbEvent.sessionOpen :: (body.events ++ [DbEvent.sessionClose])).getLast?
        = some DbEvent.sessionClose
    rw [← List.cons_append]
    exact List.getLast?_concat _

/-- C9: for every token and time, the protected route either greets the
decoded `sub` claim or raises HTTP 401 with detail "Token has expired"
(exactly on an expired signature) or "Invalid token" (exactly on a
decode failure or a payload with no `sub` claim); no other outcome is
possible. -/
theorem read_protected_total_401 (token : Jwt) (now : Int) :
    (∀ e, read_protected token now = Except.error e →
        e.status_code = 401 ∧
          (e.detail = "Token has expired" ∨ e.detail = "Invalid token")) ∧
    (∀ msg, read_protected token now = Except.ok msg →
      ∃ payload v, jwtDecode token SECRET_KEY ["HS256"] now = DecodeResult.ok payload ∧
        dictGet payload "sub" = some v ∧ msg = greet (pyStr v)) ∧
    (read_protected token now = Except.error ⟨401, "Token has expired"⟩ ↔
      jwtDecode token SECRET_KEY ["HS256"] now = DecodeResult.expiredSignatureError) ∧
    (read_protected token now = Except.error ⟨401, "Invalid token"⟩ ↔
      (jwtDecode token SECRET_KEY ["HS256"] now = DecodeResult.jwtError ∨
        ∃ payload, jwtDecode token SECRET_KEY ["HS256"] now = DecodeResult.ok payload ∧
          dictGet payload "sub" = Option.none)) := by
  cases hdec : jwtDecode token SECRET_KEY ["HS256"] now with
  | ok payload =>
    cases hsub : dictGet payload "sub" with
    | none => simp [read_protected, hdec, hsub]
    | some v =>
      refine ⟨by simp [read_protected, hdec, hsub], ?_, ?_, ?_⟩
      · intro msg hmsg
        refine ⟨payload, v, rfl, hsub, ?_⟩
        simp [read_protected, hdec, hsub] at hmsg
        exact hmsg.symm
      · simp [read_protected, hdec, hsub]
      · simp [read_protected, hdec, hsub]
  | expiredSignatureError => simp [read_protected, hdec]
  | jwtError => simp [read_protected, hdec]

/-- C9 witness: a token whose `exp` claim lies in the past yields
exactly the 401 "Token has expired" response. -/
theorem read_protected_total_401_witness :
    read_protected (jwtEncode [("exp", Value.int 0)] SECRET_KEY "HS256") 10
      = Except.error ⟨401, "Token has expired"⟩ :=
  (read_protected_total_401 (jwtEncode [("exp", Value.int 0)] SECRET_KEY "HS256") 10).2.2.1.mpr
    (by decide)

/-- C10: running `create_jwt_token` on a dict reference leaves the
caller's dict object untouched (in particular its `exp` entry is
unchanged), and the token produced is the one the pure function
computes from the dict's contents. -/
theorem create_jwt_token_no_mutation (s : Store) (data : Nat) (delta now : Int)
    (hdata : data < s.next) :
    ((create_jwt_token_st data delta now s).1.dicts data = s.dicts data) ∧
      dictGet ((create_jwt_token_st data delta now s).1.dicts data) "exp"
        = dictGet (s.dicts data) "exp" ∧
      (create_jwt_token_st data delta now s).2 = create_jwt_token (s.dicts data) delta now := by
  have hne : data ≠ s.next := Nat.ne_of_lt hdata
  refine ⟨?_, ?_, ?_⟩ <;>
    simp [create_jwt_token_st, dictCopy, dictUpdateAt, create_jwt_token, jwtEncode, hne]

/-- C10 witness: the sample store's dict at reference 0 is unchanged by
`create_jwt_token`. -/
theorem create_jwt_token_no_mutation_witness :
    (create_jwt_token_st 0 30 0 sampleStore).1.dicts 0 = sampleStore.dicts 0 :=
  (create_jwt_token_no_mutation sampleStore 0 30 0 (by decide)).1
